import Mathlib

/-!
Verification of the crawl-and-detect core of the Sellence lead qualifier
(`src/app.py`): URL normalization, the HTML phone-field evidence extractor,
and the per-company crawl orchestrator `check_website`.

The embedding is shallow: pure Python functions become Lean functions on
`String`/`List Char`; the network is an explicit fetch oracle
`String → FetchOutcome` (one outcome per candidate page path); BeautifulSoup
parse results are an explicit `HtmlDoc` value supplied alongside the raw HTML
(the HTML parser itself is an external collaborator and is not modelled).
All string values in the repository's data are ASCII, so Python `str.lower`
is modelled by `Char.toLower` on each character.
-/

namespace LeadQualifier

/-! ## URL normalizer — `normalize_url`, src/app.py lines 133-142 -/

/-- The characters Python `str.strip()` removes and `re` `\s` matches:
CPython's full whitespace set (`str.isspace()` true) — `\t\n\v\f\r`, the
separators `\x1c`-`\x1f`, space, NEL `\x85`, NBSP `\xa0`, and the Unicode
space separators. -/
def isPyWs (c : Char) : Bool :=
  let n := c.toNat
  (9 ≤ n && n ≤ 13) || (28 ≤ n && n ≤ 31) || n = 32 || n = 0x85 || n = 0xA0 ||
  n = 0x1680 || (0x2000 ≤ n && n ≤ 0x200A) || n = 0x2028 || n = 0x2029 ||
  n = 0x202F || n = 0x205F || n = 0x3000

/-- Python `s.strip()` on the character list. -/
def pyStripL (l : List Char) : List Char :=
  ((l.dropWhile isPyWs).reverse.dropWhile isPyWs).reverse

/-- Python `s.rstrip('/')` on the character list. -/
def rstripSlashL (l : List Char) : List Char :=
  (l.reverse.dropWhile (fun c => c = '/')).reverse

/-- Python `s.lower()` on the character list (ASCII). -/
def lowerL (l : List Char) : List Char := l.map Char.toLower

/-- Case-insensitive "starts with" on character lists; `p` is given in
lowercase. -/
def startsWithCIL (l p : List Char) : Bool := p.isPrefixOf (lowerL l)

/-- The scheme half of the anchored regex of line 138: remove one leading
`http://` or `https://`, case-insensitively. -/
def stripSchemeL (l : List Char) : List Char :=
  if startsWithCIL l "https://".data then l.drop 8
  else if startsWithCIL l "http://".data then l.drop 7
  else l

/-- The `www.` half of the anchored regex: remove one leading `www.`,
case-insensitively. -/
def stripWwwL (t : List Char) : List Char :=
  if startsWithCIL t "www.".data then t.drop 4 else t

/-- Models `re.sub(r'^(https?://)?(www\.)?', '', url, flags=re.IGNORECASE)`:
the anchored regex removes one optional scheme and then one optional
leading `www.`, matching case-insensitively. -/
def stripSchemeWwwL (l : List Char) : List Char := stripWwwL (stripSchemeL l)

/-- `normalize_url` on character lists: `None` ↦ `none`. -/
def normalizeUrlL (l : List Char) : Option (List Char) :=
  if l = [] then none
  else
    let u := rstripSlashL (stripSchemeWwwL (pyStripL l))
    if u = [] then none else some ("https://".data ++ u)

/-- `normalize_url` (src/app.py lines 133-142). Python's `None` result is
`none`; composing two applications therefore uses `Option.bind`, matching
`normalize_url(None) == None`. -/
def normalize_url (s : String) : Option String :=
  (normalizeUrlL s.data).map (fun l => ⟨l⟩)

/-- The part of a normalized URL after the 8-character `https://` scheme. -/
def hostPart (r : String) : String := ⟨r.data.drop 8⟩

/-- Case-insensitive "starts with" on strings; `p` given in lowercase. -/
def startsWithCI (s p : String) : Bool := startsWithCIL s.data p.data

/-- Whether the string's last character is Python whitespace. -/
def endsInPyWs (s : String) : Bool :=
  match s.data.getLast? with
  | some c => isPyWs c
  | none => false

/-! ## Evidence extractor — `check_html_for_phone_fields`, src/app.py lines 154-441

The HTML parser (BeautifulSoup) is an external collaborator: its parse of a
page is supplied as an `HtmlDoc` value next to the raw HTML string, holding
exactly the queries the source performs on the soup. -/

/-- One `<input>` element as the source reads it: `inp.get(attr, '')` for the
scalar attributes (absent attribute ↦ `""`), the class list (absent ↦ `[]`),
and the values of `data-*` attributes in order. -/
structure InputTag where
  type : String
  name : String
  id : String
  placeholder : String
  ariaLabel : String
  classes : List String
  dataVals : List String
deriving DecidableEq, Repr

/-- One `<label>` element: its `get_text()`, its `for` attribute (absent ↦
`""`), and its first nested `<input>` (`label.find('input')`). -/
structure LabelTag where
  text : String
  forAttr : String
  nestedInput : Option InputTag
deriving DecidableEq, Repr

/-- One `div`/`span`/`p` whose class matches `/field|input|form/i`
(the elements `find_all` returns at line 244): its text and its first nested
`<input>`. -/
structure WrapperTag where
  text : String
  nestedInput : Option InputTag
deriving DecidableEq, Repr

/-- The BeautifulSoup view of one page: every soup query the extractor makes,
in document order. `hsClassElem` is `soup.find(class_=/hs-form|hbspt-form|hubspot/i)
is not None`; `hsInputs` are the elements whose class matches `/hs-input/i`;
`tfWidget` is `soup.find(attrs={'data-tf-widget': True}) is not None`;
`phoneClassElem` is `soup.find(class_=/phone/i) is not None`;
`metaDescription` is the result of `extract_meta_description` on this soup. -/
structure HtmlDoc where
  inputs : List InputTag
  labels : List LabelTag
  fieldWrappers : List WrapperTag
  hsClassElem : Bool
  hsInputs : List InputTag
  tfWidget : Bool
  phoneClassElem : Bool
  metaDescription : String
deriving DecidableEq, Repr

/-- One evidence dictionary, with the five keys every construction site in the
source populates. -/
structure Field where
  type : String
  name : String
  id : String
  placeholder : String
  detection : String
deriving DecidableEq, Repr

/-- Substring test on character lists: `pat` occurs contiguously in `hay`. -/
def isSubL (pat : List Char) : List Char → Bool
  | [] => pat.isPrefixOf []
  | c :: t => pat.isPrefixOf (c :: t) || isSubL pat t

/-- Python `pat in hay` (case-sensitive substring test). -/
def pyIn (pat hay : String) : Bool := isSubL pat.data hay.data

/-- Python `s.startswith(p)`. -/
def pyStartsWith (s p : String) : Bool := p.data.isPrefixOf s.data

/-- Python `s.lower()` (ASCII). -/
def lowerS (s : String) : String := ⟨lowerL s.data⟩

/-- The token shapes occurring in the source's regular expressions:
a literal run, the class `["']`, `\s*`, and `.*` (which does not cross a
newline). Patterns are applied case-insensitively by lowering the haystack,
so literals are written in lowercase (except where `re.IGNORECASE` is not
set and the raw haystack is used). -/
inductive RTok
  | lit (cs : List Char)
  | quote
  | wsStar
  | anyStar

/-- The suffixes a starred token can leave behind: the list itself, and every
suffix reachable by consuming characters satisfying `p`. -/
def starSuffixes (p : Char → Bool) : List Char → List (List Char)
  | [] => [[]]
  | c :: cs => (c :: cs) :: (if p c then starSuffixes p cs else [])

/-- Whether the pattern matches a prefix of `cs`. -/
def rmatch : List RTok → List Char → Bool
  | [], _ => true
  | .lit p :: ts, cs => p.isPrefixOf cs && rmatch ts (cs.drop p.length)
  | .quote :: ts, cs =>
    match cs with
    | [] => false
    | c :: cs' => (c = '"' || c.toNat = 39) && rmatch ts cs'
  | .wsStar :: ts, cs => (starSuffixes isPyWs cs).any (fun t => rmatch ts t)
  | .anyStar :: ts, cs =>
      (starSuffixes (fun c => !(c = '\n')) cs).any (fun t => rmatch ts t)

/-- `re.search`: the pattern matches starting at some position. -/
def rsearch (ts : List RTok) : List Char → Bool
  | [] => rmatch ts []
  | c :: cs => rmatch ts (c :: cs) || rsearch ts cs

/-- `re.search(pattern, s, re.IGNORECASE)` with lowercase literals. -/
def reSearchCI (ts : List RTok) (s : String) : Bool := rsearch ts (lowerL s.data)

/-- The regex `type=["\x27]tel["\x27]` of line 160. -/
def telAttrPat : List RTok := [.lit "type=".data, .quote, .lit "tel".data, .quote]

/-- `PHONE_KEYWORDS`, src/app.py line 25. -/
def PHONE_KEYWORDS : List String :=
  ["phone", "mobile", "cell", "tel", "telephone", "callback", "call me",
   "call-me", "contact number"]

/-- `phone_code_patterns`, src/app.py lines 379-393 (literals lowered, since
the search is case-insensitive). -/
def phoneCodePatterns : List (List RTok) :=
  [[.quote, .lit "phone".data, .quote, .lit ":".data, .wsStar, .quote],
   [.quote, .lit "phonenumber".data, .quote],
   [.quote, .lit "phone_number".data, .quote],
   [.quote, .lit "mobilenumber".data, .quote],
   [.quote, .lit "mobile_number".data, .quote],
   [.lit "name:".data, .wsStar, .quote, .lit "phone".data, .quote],
   [.lit "id:".data, .wsStar, .quote, .lit "phone".data, .quote],
   [.lit "field".data, .quote, .lit ":".data, .wsStar, .quote, .lit "phone".data],
   [.lit "type:".data, .wsStar, .quote, .lit "tel".data, .quote],
   [.lit "\"tel\":".data, .wsStar, .lit "true".data],
   [.lit "inputmode:".data, .wsStar, .quote, .lit "tel".data, .quote],
   [.lit "phone".data, .anyStar, .lit "required".data],
   [.lit "required".data, .anyStar, .lit "phone".data]]

/-- `phone_validation_patterns`, src/app.py lines 408-418. -/
def phoneValidationPatterns : List (List RTok) :=
  [[.lit "phone".data, .anyStar, .lit "validation".data],
   [.lit "validate".data, .anyStar, .lit "phone".data],
   [.lit "phone".data, .anyStar, .lit "regex".data],
   [.lit "formatphonenumber".data],
   [.lit "parsephonenumber".data],
   [.lit "intl-tel-input".data],
   [.lit "phone-input".data],
   [.lit "phoneinput".data],
   [.lit "react-phone".data]]

/-- Input types the lexical scan skips (line 184). -/
def skipTypes : List String :=
  ["hidden", "submit", "button", "checkbox", "radio", "file", "image"]

/-- The generic duplicate-removal loop the source writes twice (`seen` set
plus append-in-order), parameterized by the identity key. -/
def dedupLoop {κ : Type} [DecidableEq κ] (key : Field → κ) :
    List Field → List κ → List Field → List Field
  | [], _, acc => acc
  | f :: rest, seen, acc =>
    if key f ∈ seen then dedupLoop key rest seen acc
    else dedupLoop key rest (key f :: seen) (acc ++ [f])

/-- The extractor's per-page deduplication key (line 436). -/
def key4 (f : Field) : String × String × String × String :=
  (f.name, f.id, f.type, f.detection)

/-- The orchestrator's final deduplication key (line 509). -/
def key3 (f : Field) : String × String × String := (f.name, f.id, f.type)

/-- Per-page deduplication (src/app.py lines 432-439). -/
def dedup4 (l : List Field) : List Field := dedupLoop key4 l [] []

/-- Final cross-page deduplication (src/app.py lines 505-512). -/
def dedupFields (l : List Field) : List Field := dedupLoop key3 l [] []

/-- Detector 0 (lines 160-167): quick regex check for `type="tel"` in the
raw HTML. -/
def step0TelRegex (lh : List Char) (pf : List Field) : List Field :=
  if rsearch telAttrPat lh then
    pf ++ [⟨"input[type=tel] (regex)", "", "", "", "type=tel found in HTML"⟩]
  else pf

/-- Detector 1 (lines 170-178): input elements whose `type` attribute equals
`tel`. -/
def step1TelInputs (doc : HtmlDoc) (pf : List Field) : List Field :=
  pf ++ (doc.inputs.filter (fun i => i.type == "tel")).map
    (fun i => ⟨"input[type=tel]", i.name, i.id, i.placeholder, "type=tel"⟩)

/-- The lexical scan's treatment of one input element (lines 183-207); the
keyword loop breaks at the first containment, modelled by `find?`. -/
def lexicalOne (pf : List Field) (i : InputTag) : List Field :=
  if lowerS i.type ∈ skipTypes then pf
  else
    let combined := lowerS i.name ++ " " ++ lowerS i.id ++ " " ++ lowerS i.placeholder
        ++ " " ++ lowerS i.ariaLabel ++ " " ++ lowerS (String.intercalate " " i.classes)
        ++ " " ++ lowerS (String.intercalate " " i.dataVals)
    match PHONE_KEYWORDS.find? (fun kw => pyIn kw combined) with
    | none => pf
    | some kw =>
      let fi : Field := ⟨"input[keyword match]", i.name, i.id, i.placeholder, "keyword: " ++ kw⟩
      if fi ∈ pf then pf else pf ++ [fi]

/-- Detector 2 (lines 181-207): lexical scan of all inputs. -/
def step2Lexical (doc : HtmlDoc) (pf : List Field) : List Field :=
  doc.inputs.foldl lexicalOne pf

/-- One label's contribution (lines 211-241). -/
def labelOne (doc : HtmlDoc) (pf : List Field) (lab : LabelTag) : List Field :=
  let lt : String := ⟨pyStripL (lowerL lab.text.data)⟩
  match PHONE_KEYWORDS.find? (fun kw => pyIn kw lt) with
  | none => pf
  | some kw =>
    if lab.forAttr ≠ "" then
      match doc.inputs.find? (fun i => i.id == lab.forAttr) with
      | some ai =>
        let fi : Field := ⟨"input[label match]", ai.name, ai.id, ai.placeholder, "label: " ++ kw⟩
        if fi ∈ pf then pf else pf ++ [fi]
      | none => pf
    else
      match lab.nestedInput with
      | some ni =>
        let fi : Field := ⟨"input[nested in label]", ni.name, ni.id, ni.placeholder, "nested label: " ++ kw⟩
        if fi ∈ pf then pf else pf ++ [fi]
      | none => pf

/-- Detector 3 (lines 210-241): labels containing phone text. -/
def step3Labels (doc : HtmlDoc) (pf : List Field) : List Field :=
  doc.labels.foldl (labelOne doc) pf

/-- One field wrapper's contribution (lines 245-260); only the first four
keywords are tried. -/
def wrapperOne (pf : List Field) (wr : WrapperTag) : List Field :=
  let wt : String := ⟨(lowerL wr.text.data).take 100⟩
  match (PHONE_KEYWORDS.take 4).find? (fun kw => pyIn kw wt) with
  | none => pf
  | some kw =>
    match wr.nestedInput with
    | some ni =>
      if lowerS ni.type ∈ ["hidden", "submit", "button"] then pf
      else
        let fi : Field := ⟨"input[wrapper text]", ni.name, ni.id, ni.placeholder, "wrapper: " ++ kw⟩
        if fi ∈ pf then pf else pf ++ [fi]
    | none => pf

/-- Detector 4 (lines 244-260): form-field wrappers with phone text. -/
def step4Wrappers (doc : HtmlDoc) (pf : List Field) : List Field :=
  doc.fieldWrappers.foldl wrapperOne pf

/-- HubSpot detection (lines 264-284). -/
def step5Hubspot (lhS : String) (doc : HtmlDoc) (pf : List Field) : List Field :=
  if doc.hsClassElem || pyIn "hubspot" lhS then
    let pf := doc.hsInputs.foldl (fun pf i =>
      let n := lowerS i.name
      if pyIn "phone" n || pyIn "mobile" n || pyIn "tel" n then
        pf ++ [⟨"hubspot form", i.name, i.id, "", "HubSpot form field"⟩]
      else pf) pf
    if pf.isEmpty && pyIn "hs-form" lhS then
      pf ++ [⟨"hubspot form (likely)", "", "", "", "HubSpot form detected (commonly includes phone)"⟩]
    else pf
  else pf

/-- Marketo detection (lines 287-294). -/
def step5Marketo (html lhS : String) (pf : List Field) : List Field :=
  if pyIn "mktoForm" html || pyIn "marketo" lhS then
    pf ++ [⟨"marketo form", "", "", "", "Marketo form detected (commonly includes phone)"⟩]
  else pf

/-- Pardot detection (lines 297-304). -/
def step5Pardot (html lhS : String) (pf : List Field) : List Field :=
  if pyIn "pardot" lhS || pyIn "pi.pardot" html then
    pf ++ [⟨"pardot form", "", "", "", "Pardot form detected (commonly includes phone)"⟩]
  else pf

/-- Typeform detection (lines 307-314). -/
def step5Typeform (lhS : String) (doc : HtmlDoc) (pf : List Field) : List Field :=
  if doc.tfWidget || pyIn "typeform.com" lhS then
    pf ++ [⟨"typeform embed", "", "", "", "Typeform detected (likely has phone field)"⟩]
  else pf

/-- Calendly detection (lines 317-324). -/
def step5Calendly (lhS : String) (pf : List Field) : List Field :=
  if pyIn "calendly.com" lhS then
    pf ++ [⟨"calendly embed", "", "", "", "Calendly detected (may request phone)"⟩]
  else pf

/-- JotForm detection (lines 327-334). -/
def step5Jotform (lhS : String) (pf : List Field) : List Field :=
  if pyIn "jotform" lhS then
    pf ++ [⟨"jotform embed", "", "", "", "JotForm detected (commonly includes phone)"⟩]
  else pf

/-- Gravity Forms detection (lines 337-366). -/
def step5Gravity (html lhS : String) (doc : HtmlDoc) (pf : List Field) : List Field :=
  if pyIn "gform" lhS || pyIn "gravity-form" lhS || pyIn "gravityforms" lhS then
    let pf :=
      if pyIn "gfield--type-phone" html then
        pf ++ [⟨"gravity form phone field", "", "", "", "Gravity Forms phone field (gfield--type-phone)"⟩]
      else if pyIn "ginput_container_phone" html then
        pf ++ [⟨"gravity form phone field", "", "", "", "Gravity Forms phone input (ginput_container_phone)"⟩]
      else pf
    let gfPhone := doc.inputs.any (fun i => i.type == "tel") || doc.phoneClassElem
    if gfPhone || pyIn "gfield_contains_required" html then
      if pf.any (fun f => pyIn "gravity" (lowerS f.type)) then pf
      else pf ++ [⟨"gravity form", "", "", "", "Gravity Forms detected"⟩]
    else pf
  else pf

/-- WPForms detection (lines 369-376). -/
def step5Wpforms (lhS : String) (pf : List Field) : List Field :=
  if pyIn "wpforms" lhS then
    pf ++ [⟨"wpforms", "", "", "", "WPForms detected (commonly includes phone)"⟩]
  else pf

/-- Detector 6 (lines 379-405): script code patterns, only added when
nothing has been found yet. -/
def step6CodePatterns (lh : List Char) (pf : List Field) : List Field :=
  if phoneCodePatterns.any (fun ts => rsearch ts lh) then
    if pf.isEmpty then
      pf ++ [⟨"code pattern", "", "", "", "JavaScript/React pattern detected"⟩]
    else pf
  else pf

/-- Detector 7 (lines 408-430): validation-library patterns. -/
def step7Validation (lh : List Char) (pf : List Field) : List Field :=
  if phoneValidationPatterns.any (fun ts => rsearch ts lh) then
    if pf.any (fun f => pyStartsWith f.detection "validation") then pf
    else pf ++ [⟨"phone validation library", "", "", "", "Phone validation/formatting library detected"⟩]
  else pf

/-- `check_html_for_phone_fields` (src/app.py lines 154-441), returning the
deduplicated evidence list: the detectors run in source order on the empty
accumulator, then the result is deduplicated per page. The source also
returns the soup, which here is the `doc` argument. -/
def check_html_for_phone_fields (html : String) (doc : HtmlDoc) : List Field :=
  let lh : List Char := lowerL html.data
  let lhS : String := ⟨lh⟩
  dedup4 (step7Validation lh (step6CodePatterns lh (step5Wpforms lhS
    (step5Gravity html lhS doc (step5Jotform lhS (step5Calendly lhS
    (step5Typeform lhS doc (step5Pardot html lhS (step5Marketo html lhS
    (step5Hubspot lhS doc (step4Wrappers doc (step3Labels doc
    (step2Lexical doc (step1TelInputs doc (step0TelRegex lh [])))))))))))))))

/-! ## Crawl orchestrator — `check_website`, src/app.py lines 443-528 -/

/-- `PAGES_TO_CHECK`, src/app.py lines 28-62. -/
def PAGES_TO_CHECK : List String :=
  ["/", "/contact", "/contact/", "/contact-us", "/contact-us/", "/get-quote",
   "/get-quote/", "/quote", "/quote/", "/get-a-quote", "/get-a-quote/",
   "/free-quote", "/get-started", "/get-started/", "/start", "/signup",
   "/sign-up", "/register", "/demo", "/demo/", "/request-demo", "/book-demo",
   "/schedule", "/schedule/", "/talk-to-us", "/request-callback", "/apply",
   "/apply/", "/enroll", "/get-pricing", "/pricing", "/pricing/", "/plans"]

/-- Outcome of one `req.get` on a candidate page: a raised exception
(timeout / request error / anything, all handled alike by `continue`), or a
response carrying an HTTP status, the body, and its parse. -/
inductive FetchOutcome
  | failure
  | response (status : Nat) (html : String) (doc : HtmlDoc)
deriving DecidableEq, Repr

/-- The loop-carried state of `check_website`: accumulated `phone_fields`,
the captured `description`, and `pages_checked`. -/
structure LoopState where
  pf : List Field
  desc : String
  pc : Nat
deriving DecidableEq, Repr

/-- Whether one loop iteration falls through to the next candidate page or
breaks out of the loop. -/
inductive StepRes
  | cont (s : LoopState)
  | stop (s : LoopState)
deriving DecidableEq, Repr

/-- One iteration of the candidate-page loop (src/app.py lines 477-503) on
the fetch outcome `o` for candidate path `p`. -/
def crawlStep (o : FetchOutcome) (p : String) (s : LoopState) : StepRes :=
  match o with
  | .failure => .cont s
  | .response st html doc =>
    if st ≠ 200 then .cont s
    else
      let pc := s.pc + 1
      let fields := check_html_for_phone_fields html doc
      let desc := if p = "/" ∧ s.desc = "" then doc.metaDescription else s.desc
      if fields.isEmpty then .cont ⟨s.pf, desc, pc⟩
      else
        let pf := s.pf ++ fields
        if fields.any (fun f => f.type == "input[type=tel]") = true ∨ 2 ≤ pf.length
        then .stop ⟨pf, desc, pc⟩
        else .cont ⟨pf, desc, pc⟩

/-- The candidate-page loop: consume paths in order until exhaustion or a
break. -/
def crawlLoop (fetch : String → FetchOutcome) : List String → LoopState → LoopState
  | [], s => s
  | p :: rest, s =>
    match crawlStep (fetch p) p s with
    | .cont s' => crawlLoop fetch rest s'
    | .stop s' => s'

/-- The per-company verdict, restricted to the fields the core computes
(the company's CSV columns are passed through unchanged and
`sellence_reasons` comes from the excluded marketing-copy collaborator). -/
structure Verdict where
  hasPhoneField : Bool
  phoneFieldDetails : List Field
  status : String
  error : Option String
  scrapedDescription : String
  pagesChecked : Nat
deriving DecidableEq, Repr

/-- Verdict assembly after the loop (src/app.py lines 505-520). -/
def finalize (s : LoopState) : Verdict :=
  let unique := dedupFields s.pf
  { hasPhoneField := decide (0 < unique.length)
    phoneFieldDetails := unique
    status := if 0 < s.pc then "success" else "error"
    error := if s.pc = 0 then some "Could not access website" else none
    scrapedDescription := s.desc
    pagesChecked := s.pc }

/-- The verdict returned when URL normalization fails (lines 459-463); the
spec's `Failed`/`InvalidURL`. -/
def invalidVerdict : Verdict :=
  { hasPhoneField := false, phoneFieldDetails := [], status := "error",
    error := some "Invalid URL", scrapedDescription := "", pagesChecked := 0 }

/-- `check_website` (src/app.py lines 443-528) over a fetch oracle giving the
outcome of `req.get` per candidate path. Only the first 12 entries of
`PAGES_TO_CHECK` enter the loop (line 477). -/
def check_website (website : String) (fetch : String → FetchOutcome) : Verdict :=
  match normalize_url website with
  | none => invalidVerdict
  | some _ => finalize (crawlLoop fetch (PAGES_TO_CHECK.take 12) ⟨[], "", 0⟩)

/-! ## Helper lemmas -/

theorem dropWhile_head_false {p : Char → Bool} {l : List Char}
    (h : ∀ c, l.head? = some c → p c = false) : l.dropWhile p = l := by
  cases l with
  | nil => rfl
  | cons a t => simp [List.dropWhile_cons, h a rfl]

theorem isPrefixOf_self_append (l t : List Char) : l.isPrefixOf (l ++ t) = true := by
  induction l with
  | nil => simp [List.isPrefixOf]
  | cons a l ih => simpa [List.isPrefixOf] using ih

theorem rstripSlashL_idem (l : List Char) :
    rstripSlashL (rstripSlashL l) = rstripSlashL l := by
  unfold rstripSlashL
  rw [List.reverse_reverse, List.dropWhile_idempotent]

/-- Dissecting a successful normalization: the result is the scheme glued to
the non-empty stripped remainder. -/
theorem normalizeUrlL_eq_some {d l : List Char} (h : normalizeUrlL d = some l) :
    l = "https://".data ++ rstripSlashL (stripSchemeWwwL (pyStripL d)) ∧
    rstripSlashL (stripSchemeWwwL (pyStripL d)) ≠ [] := by
  simp only [normalizeUrlL] at h
  by_cases hd : d = []
  · rw [if_pos hd] at h; cases h
  · rw [if_neg hd] at h
    by_cases he : rstripSlashL (stripSchemeWwwL (pyStripL d)) = []
    · rw [if_pos he] at h; cases h
    · rw [if_neg he] at h
      injection h with h'
      exact ⟨h'.symm, he⟩

/-- Re-normalizing a canonical URL whose host does not retain a leading
`www.` and does not end in whitespace gives it back unchanged. -/
theorem normalizeUrlL_self (u : List Char) (hu : u ≠ [])
    (hw : startsWithCIL u "www.".data = false)
    (hws : ∀ c, u.getLast? = some c → isPyWs c = false)
    (hsl : rstripSlashL u = u) :
    normalizeUrlL ("https://".data ++ u) = some ("https://".data ++ u) := by
  have hne : "https://".data ++ u ≠ [] := by simp
  have h1 : ("https://".data ++ u).dropWhile isPyWs = "https://".data ++ u := by
    apply dropWhile_head_false
    intro c hc
    have hh : ("https://".data ++ u).head? = some 'h' := rfl
    rw [hh] at hc
    have : 'h' = c := by injection hc
    subst this; decide
  have h2 : (("https://".data ++ u).reverse).dropWhile isPyWs
      = ("https://".data ++ u).reverse := by
    apply dropWhile_head_false
    intro c hc
    rw [List.head?_reverse, List.getLast?_append] at hc
    cases hgl : u.getLast? with
    | none => exact absurd (List.getLast?_eq_none_iff.mp hgl) hu
    | some d =>
      rw [hgl] at hc
      have hdc : d = c := by
        have hor : (some d).or ("https://".data.getLast?) = some d := rfl
        rw [hor] at hc; injection hc
      subst hdc; exact hws d hgl
  have hstrip : pyStripL ("https://".data ++ u) = "https://".data ++ u := by
    unfold pyStripL
    rw [h1, h2, List.reverse_reverse]
  have hdrop : ("https://".data ++ u).drop 8 = u := by
    have h := List.drop_left "https://".data u
    simpa using h
  have hci : startsWithCIL ("https://".data ++ u) "https://".data = true := by
    unfold startsWithCIL lowerL
    rw [List.map_append,
      show List.map Char.toLower "https://".data = "https://".data from by decide]
    exact isPrefixOf_self_append _ _
  have hsch : stripSchemeL ("https://".data ++ u) = u := by
    unfold stripSchemeL
    rw [hci, if_pos rfl]
    exact hdrop
  have hst : stripSchemeWwwL ("https://".data ++ u) = u := by
    unfold stripSchemeWwwL
    rw [hsch]
    unfold stripWwwL
    rw [hw, if_neg (by simp)]
  have hcomp :
      rstripSlashL (stripSchemeWwwL (pyStripL ("https://".data ++ u))) = u := by
    rw [hstrip, hst, hsl]
  unfold normalizeUrlL
  rw [if_neg hne]
  show (if rstripSlashL (stripSchemeWwwL (pyStripL ("https://".data ++ u))) = []
        then none
        else some ("https://".data
          ++ rstripSlashL (stripSchemeWwwL (pyStripL ("https://".data ++ u)))))
      = some ("https://".data ++ u)
  rw [hcomp, if_neg hu]

/-! ## Claims C4 and C5 — URL normalization -/

/-- C4 counterexample: `"www.www.example.com"` is a non-empty input on which
normalization is not idempotent — the anchored regex strips only one leading
`www.`, so the first pass leaves `https://www.example.com` and the second
pass strips the remaining `www.`. -/
theorem c4_counterexample :
    "www.www.example.com" ≠ "" ∧
    normalize_url "www.www.example.com" = some "https://www.example.com" ∧
    (normalize_url "www.www.example.com").bind normalize_url
      = some "https://example.com" ∧
    (normalize_url "www.www.example.com").bind normalize_url
      ≠ normalize_url "www.www.example.com" := by
  refine ⟨by decide, by decide, by decide, by decide⟩

/-- C4 (amended): normalization is idempotent on every non-empty input whose
normalized result, after the `https://` scheme, neither begins with another
`www.` (case-insensitively) nor ends in a whitespace character;
`normalize(normalize(x)) == normalize(x)` then holds, with `Option.bind`
propagating the `None` of a failed normalization exactly as
`normalize_url(None)` is `None` in the source. -/
theorem c4_idempotent_amended (x : String) (hne : x ≠ "")
    (hcond : ∀ r, normalize_url x = some r →
      startsWithCI (hostPart r) "www." = false ∧ endsInPyWs r = false) :
    (normalize_url x).bind normalize_url = normalize_url x := by
  cases h : normalize_url x with
  | none => rfl
  | some r =>
    have hr := hcond r h
    unfold normalize_url at h
    cases hL : normalizeUrlL x.data with
    | none => rw [hL] at h; cases h
    | some l =>
      rw [hL, Option.map_some'] at h
      injection h with h'
      obtain ⟨hl, he⟩ := normalizeUrlL_eq_some hL
      -- name the stripped remainder
      generalize hU : rstripSlashL (stripSchemeWwwL (pyStripL x.data)) = U at hl he
      subst hl
      subst h'
      have hdrop : ("https://".data ++ U).drop 8 = U := by
        have h2 := List.drop_left "https://".data U
        simpa using h2
      -- transport the two side conditions to the list level
      have hwL : startsWithCIL U "www.".data = false := by
        have h1 := hr.1
        unfold startsWithCI hostPart at h1
        rw [show (String.mk ("https://".data ++ U)).data
              = "https://".data ++ U from rfl, hdrop] at h1
        exact h1
      have hwsL : ∀ c, U.getLast? = some c → isPyWs c = false := by
        intro c hc
        have h1 := hr.2
        unfold endsInPyWs at h1
        rw [show (String.mk ("https://".data ++ U)).data
              = "https://".data ++ U from rfl] at h1
        rw [List.getLast?_append, hc] at h1
        exact h1
      have hslL : rstripSlashL U = U := by
        rw [← hU, rstripSlashL_idem]
      -- conclude by re-normalizing
      rw [Option.some_bind]
      unfold normalize_url
      rw [show (String.mk ("https://".data ++ U)).data
            = "https://".data ++ U from rfl,
        normalizeUrlL_self U he hwL hwsL hslL]
      rfl

/-- Witness for C4 (amended) at the input `"example.com"`. -/
theorem c4_idempotent_amended_witness :
    (normalize_url "example.com").bind normalize_url
      = normalize_url "example.com" := by
  apply c4_idempotent_amended "example.com" (by decide)
  intro r hr
  have he : normalize_url "example.com" = some "https://example.com" := by decide
  rw [he] at hr
  have : "https://example.com" = r := by injection hr
  subst this
  exact ⟨by decide, by decide⟩

/-- C5 counterexample: `normalize_url` does not case-fold — on
`"WWW.Example.COM/"` it strips the `WWW.` prefix case-insensitively but
keeps the remainder's case, so the result is not `https://example.com`. -/
theorem c5_counterexample :
    normalize_url "WWW.Example.COM/" ≠ some "https://example.com" := by
  decide

/-- C5 (amended): URL normalization strips surrounding whitespace, a leading
scheme and a leading `www.` case-insensitively and a trailing slash, but
preserves the case of the remainder: `"WWW.Example.COM/"` normalizes to
exactly `https://Example.COM`. -/
theorem c5_normalize_case_amended :
    normalize_url "WWW.Example.COM/" = some "https://Example.COM" := by
  decide

/-! ## Deduplication lemmas -/

/-- The dedup loop preserves and establishes pairwise-distinct keys: every
accumulated key is in `seen`, and a field is only appended when its key is
fresh. -/
theorem dedupLoop_pairwise {κ : Type} [DecidableEq κ] (key : Field → κ) :
    ∀ (l : List Field) (seen : List κ) (acc : List Field),
      (∀ f ∈ acc, key f ∈ seen) →
      acc.Pairwise (fun a b => key a ≠ key b) →
      (dedupLoop key l seen acc).Pairwise (fun a b => key a ≠ key b) := by
  intro l
  induction l with
  | nil =>
    intro seen acc _ h2
    simpa [dedupLoop] using h2
  | cons f rest ih =>
    intro seen acc h1 h2
    unfold dedupLoop
    by_cases hk : key f ∈ seen
    · rw [if_pos hk]
      exact ih seen acc h1 h2
    · rw [if_neg hk]
      apply ih
      · intro g hg
        rcases List.mem_append.mp hg with hg | hg
        · exact List.mem_cons_of_mem _ (h1 g hg)
        · have hgf : g = f := by simpa using hg
          subst hgf
          exact List.mem_cons_self _ _
      · rw [List.pairwise_append]
        refine ⟨h2, List.pairwise_singleton _ _, ?_⟩
        intro a ha b hb
        have hb' : b = f := by simpa using hb
        subst hb'
        intro hab
        exact hk (hab ▸ h1 a ha)

/-- The dedup loop adds at most one output field per input field. -/
theorem dedupLoop_length_le {κ : Type} [DecidableEq κ] (key : Field → κ) :
    ∀ (l : List Field) (seen : List κ) (acc : List Field),
      (dedupLoop key l seen acc).length ≤ acc.length + l.length := by
  intro l
  induction l with
  | nil => intro seen acc; simp [dedupLoop]
  | cons f rest ih =>
    intro seen acc
    unfold dedupLoop
    by_cases hk : key f ∈ seen
    · rw [if_pos hk]
      have h := ih seen acc
      simp only [List.length_cons]
      omega
    · rw [if_neg hk]
      have h := ih (key f :: seen) (acc ++ [f])
      simp only [List.length_append, List.length_cons, List.length_nil] at h ⊢
      omega

theorem dedupFields_length_le (l : List Field) :
    (dedupFields l).length ≤ l.length := by
  have h := dedupLoop_length_le key3 l [] []
  simpa [dedupFields] using h

/-! ## Claim C1 — phone flag iff non-empty evidence -/

theorem finalize_flag_iff (s : LoopState) :
    (finalize s).hasPhoneField = true ↔ (finalize s).phoneFieldDetails ≠ [] := by
  simp [finalize, List.length_pos]

/-- C1: in every assembled verdict, the "has phone field" flag is true iff
the deduplicated evidence list is non-empty (`has_phone_field =
len(unique_fields) > 0` and `phone_field_details = unique_fields`,
src/app.py lines 514-515; the invalid-URL verdict has flag false and an
empty list). -/
theorem c1_flag_iff_evidence (w : String) (fetch : String → FetchOutcome) :
    (check_website w fetch).hasPhoneField = true ↔
      (check_website w fetch).phoneFieldDetails ≠ [] := by
  unfold check_website
  cases hn : normalize_url w with
  | none => simp [invalidVerdict]
  | some u => exact finalize_flag_iff _

/-! ## Claim C2 — no duplicate deduplication identities -/

/-- C2: the evidence list of every assembled verdict contains no two items
with the same (kind, name, id) triple: the final dedup loop of
src/app.py lines 505-512 keys on exactly these three attributes. -/
theorem c2_no_duplicate_identities (w : String) (fetch : String → FetchOutcome) :
    (check_website w fetch).phoneFieldDetails.Pairwise
      (fun a b => (a.type, a.name, a.id) ≠ (b.type, b.name, b.id)) := by
  have hgen : ∀ pf : List Field,
      (dedupFields pf).Pairwise (fun a b => key3 a ≠ key3 b) := by
    intro pf
    apply dedupLoop_pairwise key3 pf [] []
    · intro f hf; cases hf
    · exact List.Pairwise.nil
  unfold check_website
  cases hn : normalize_url w with
  | none => exact List.Pairwise.nil
  | some u =>
    refine List.Pairwise.imp ?_ (hgen (crawlLoop fetch (PAGES_TO_CHECK.take 12) ⟨[], "", 0⟩).pf)
    intro a b hk hck
    apply hk
    have h1 : a.type = b.type := congrArg Prod.fst hck
    have h23 := congrArg Prod.snd hck
    have h2 : a.name = b.name := congrArg Prod.fst h23
    have h3 : a.id = b.id := congrArg Prod.snd h23
    unfold key3
    rw [h1, h2, h3]

/-! ## Claim C7 — all candidate pages return HTTP 500 -/

theorem crawlStep_500 (p : String) (s : LoopState) (html : String) (doc : HtmlDoc) :
    crawlStep (FetchOutcome.response 500 html doc) p s = StepRes.cont s := by
  simp only [crawlStep]
  rw [if_pos (show (500 : Nat) ≠ 200 by decide)]

theorem crawlLoop_all_500 (fetch : String → FetchOutcome)
    (h : ∀ p, ∃ html doc, fetch p = FetchOutcome.response 500 html doc) :
    ∀ l s, crawlLoop fetch l s = s := by
  intro l
  induction l with
  | nil => intro s; rfl
  | cons p rest ih =>
    intro s
    obtain ⟨html, doc, hp⟩ := h p
    unfold crawlLoop
    rw [hp, crawlStep_500]
    exact ih s

/-- C7: when every candidate page answers HTTP 500, the crawl yields the
failed verdict — status `error` with reason `Could not access website` (the
spec's `Failed`/`Unreachable`), no evidence, zero pages checked. -/
theorem c7_all_500_unreachable (w u : String) (fetch : String → FetchOutcome)
    (hnorm : normalize_url w = some u)
    (h500 : ∀ p, ∃ html doc, fetch p = FetchOutcome.response 500 html doc) :
    check_website w fetch =
      { hasPhoneField := false, phoneFieldDetails := [], status := "error",
        error := some "Could not access website", scrapedDescription := "",
        pagesChecked := 0 } := by
  unfold check_website
  rw [hnorm, crawlLoop_all_500 fetch h500]
  rfl

/-- The parse of a page with no inputs, labels, wrappers or builder markers. -/
def emptyDoc : HtmlDoc :=
  ⟨[], [], [], false, [], false, false, ""⟩

/-- Witness for C7: a concrete crawl in which every page answers 500. -/
theorem c7_witness :
    check_website "example.com" (fun _ => FetchOutcome.response 500 "" emptyDoc) =
      { hasPhoneField := false, phoneFieldDetails := [], status := "error",
        error := some "Could not access website", scrapedDescription := "",
        pagesChecked := 0 } :=
  c7_all_500_unreachable "example.com" "https://example.com" _ (by decide)
    (fun _ => ⟨"", emptyDoc, rfl⟩)

/-! ## Claim C8 — invalid URL fails immediately with no network activity -/

/-- C8: when normalization fails, `check_website` returns the failed verdict
with reason `Invalid URL` (the spec's `Failed`/`InvalidURL`), zero pages
checked — and the result is the same under every fetch oracle, so no page
fetch is observable (the source returns at line 463 before any request). -/
theorem c8_invalid_url_no_fetch (w : String) (fetch fetch' : String → FetchOutcome)
    (hnorm : normalize_url w = none) :
    check_website w fetch =
      { hasPhoneField := false, phoneFieldDetails := [], status := "error",
        error := some "Invalid URL", scrapedDescription := "",
        pagesChecked := 0 } ∧
    check_website w fetch = check_website w fetch' := by
  unfold check_website
  rw [hnorm]
  exact ⟨rfl, rfl⟩

/-- Witness for C8 at the whitespace-only website string. -/
theorem c8_witness :
    check_website "   " (fun _ => FetchOutcome.failure) =
      { hasPhoneField := false, phoneFieldDetails := [], status := "error",
        error := some "Invalid URL", scrapedDescription := "",
        pagesChecked := 0 } ∧
    check_website "   " (fun _ => FetchOutcome.failure)
      = check_website "   " (fun _ => FetchOutcome.response 200 "" emptyDoc) :=
  c8_invalid_url_no_fetch "   " _ _ (by decide)

/-! ## Claim C10 — at most the first 12 of the 33 candidate pages -/

/-- The state carried out of a loop iteration, whether it continues or
breaks. -/
def stepState : StepRes → LoopState
  | .cont s => s
  | .stop s => s

theorem crawlStep_pc_le (o : FetchOutcome) (p : String) (s : LoopState) :
    (stepState (crawlStep o p s)).pc ≤ s.pc + 1 := by
  cases o with
  | failure => simp [crawlStep, stepState]
  | response st html doc =>
    simp only [crawlStep]
    split
    · simp [stepState]
    · split
      · simp [stepState]
      · split
        · simp [stepState]
        · simp [stepState]

theorem crawlLoop_pc_le (fetch : String → FetchOutcome) :
    ∀ l s, (crawlLoop fetch l s).pc ≤ s.pc + l.length := by
  intro l
  induction l with
  | nil => intro s; simp [crawlLoop]
  | cons p rest ih =>
    intro s
    unfold crawlLoop
    cases hstep : crawlStep (fetch p) p s with
    | cont s' =>
      have h1 : s'.pc ≤ s.pc + 1 := by
        have h := crawlStep_pc_le (fetch p) p s
        rw [hstep] at h
        exact h
      have h2 := ih s'
      simp only [List.length_cons]
      omega
    | stop s' =>
      have h1 : s'.pc ≤ s.pc + 1 := by
        have h := crawlStep_pc_le (fetch p) p s
        rw [hstep] at h
        exact h
      simp only [List.length_cons]
      omega

/-- The loop's result depends only on the oracle's values on the visited
list. -/
theorem crawlLoop_congr (f f' : String → FetchOutcome) :
    ∀ l s, (∀ p ∈ l, f' p = f p) → crawlLoop f' l s = crawlLoop f l s := by
  intro l
  induction l with
  | nil => intro s _; rfl
  | cons p rest ih =>
    intro s hag
    unfold crawlLoop
    rw [hag p (List.mem_cons_self p rest)]
    cases crawlStep (f p) p s with
    | cont s' => exact ih s' (fun q hq => hag q (List.mem_cons_of_mem p hq))
    | stop s' => rfl

/-- C10: `PAGES_TO_CHECK` has 33 entries, the verdict's `pages_checked` never
exceeds 12, and the verdict depends only on the oracle's values on the first
12 candidate paths — pages beyond `PAGES_TO_CHECK[:12]` are never fetched
(src/app.py line 477). -/
theorem c10_first_12_of_33 (w : String) (fetch : String → FetchOutcome) :
    (check_website w fetch).pagesChecked ≤ 12 ∧
    PAGES_TO_CHECK.length = 33 ∧
    (∀ fetch', (∀ p ∈ PAGES_TO_CHECK.take 12, fetch' p = fetch p) →
      check_website w fetch' = check_website w fetch) := by
  refine ⟨?_, rfl, ?_⟩
  · unfold check_website
    cases hn : normalize_url w with
    | none => simp [invalidVerdict]
    | some u =>
      have h := crawlLoop_pc_le fetch (PAGES_TO_CHECK.take 12) ⟨[], "", 0⟩
      have h12 : (⟨[], "", 0⟩ : LoopState).pc + (PAGES_TO_CHECK.take 12).length
          = 12 := by decide
      rw [h12] at h
      exact h
  · intro fetch' hag
    unfold check_website
    cases hn : normalize_url w with
    | none => rfl
    | some u => rw [crawlLoop_congr fetch fetch' _ _ hag]

/-! ## Claim C3 — early stop -/

/-- The claim's stop condition on the accumulated evidence: at least one
high-confidence native tel-input item (kind `input[type=tel]`, the kind the
source's `strong_evidence` test at line 494 checks) has been found, or the
cumulative deduplicated evidence count has reached the threshold 2. The
source breaks on `len(phone_fields) >= 2` before deduplication, which stops
at least as early. -/
def stopCond (pf : List Field) : Prop :=
  (∃ f ∈ pf, f.type = "input[type=tel]") ∨ 2 ≤ (dedupFields pf).length

/-- A loop iteration that falls through to the next page cannot have made the
stop condition true. -/
theorem crawlStep_cont_inv {o : FetchOutcome} {p : String} {s s' : LoopState}
    (h : crawlStep o p s = StepRes.cont s') (hs : ¬ stopCond s.pf) :
    ¬ stopCond s'.pf := by
  cases o with
  | failure =>
    simp only [crawlStep] at h
    injection h with h'
    subst h'
    exact hs
  | response st html doc =>
    simp only [crawlStep] at h
    by_cases h200 : st ≠ 200
    · rw [if_pos h200] at h
      injection h with h'
      subst h'
      exact hs
    · rw [if_neg h200] at h
      by_cases hemp : (check_html_for_phone_fields html doc).isEmpty
      · rw [if_pos hemp] at h
        injection h with h'
        subst h'
        exact hs
      · rw [if_neg hemp] at h
        by_cases hbr :
            ((check_html_for_phone_fields html doc).any
                (fun f => f.type == "input[type=tel]")) = true ∨
              2 ≤ (s.pf ++ check_html_for_phone_fields html doc).length
        · rw [if_pos hbr] at h
          cases h
        · rw [if_neg hbr] at h
          injection h with h'
          subst h'
          intro hsc
          rcases hsc with ⟨f, hf, hft⟩ | hlen
          · rcases List.mem_append.mp hf with hf | hf
            · exact hs (Or.inl ⟨f, hf, hft⟩)
            · exact hbr (Or.inl (List.any_eq_true.mpr ⟨f, hf, by simp [hft]⟩))
          · exact hbr (Or.inr (le_trans hlen (le_trans (dedupFields_length_le _)
              (Nat.le_refl _))))

/-- From any state in which the stop condition does not yet hold, the loop
consults some prefix of `m` pages: its result depends only on the oracle's
values there, and the condition is false after every strictly shorter
prefix. -/
theorem crawlLoop_stop_locality (fetch : String → FetchOutcome) :
    ∀ (l : List String) (s : LoopState), ¬ stopCond s.pf →
      ∃ m, m ≤ l.length ∧
        (∀ f', (∀ p ∈ l.take m, f' p = fetch p) →
          crawlLoop f' l s = crawlLoop fetch l s) ∧
        (∀ k, k < m → ¬ stopCond (crawlLoop fetch (l.take k) s).pf) := by
  intro l
  induction l with
  | nil =>
    intro s hs
    exact ⟨0, Nat.le_refl 0, fun f' _ => rfl,
      fun k hk => absurd hk (Nat.not_lt_zero k)⟩
  | cons p rest ih =>
    intro s hs
    cases hstep : crawlStep (fetch p) p s with
    | stop s' =>
      refine ⟨1, Nat.succ_le_succ (Nat.zero_le _), ?_, ?_⟩
      · intro f' hagree
        have hp : f' p = fetch p := hagree p (by simp)
        unfold crawlLoop
        rw [hp, hstep]
      · intro k hk
        have hk0 : k = 0 := Nat.lt_one_iff.mp hk
        subst hk0
        simpa [List.take_zero, crawlLoop] using hs
    | cont s' =>
      have hs' := crawlStep_cont_inv hstep hs
      obtain ⟨m, hm, hag, hpre⟩ := ih s' hs'
      refine ⟨m + 1, Nat.succ_le_succ hm, ?_, ?_⟩
      · intro f' hagree
        have hp : f' p = fetch p := hagree p (by
          rw [List.take_succ_cons]
          exact List.mem_cons_self _ _)
        have htail : ∀ q ∈ rest.take m, f' q = fetch q := by
          intro q hq
          apply hagree
          rw [List.take_succ_cons]
          exact List.mem_cons_of_mem _ hq
        unfold crawlLoop
        rw [hp, hstep]
        exact hag f' htail
      · intro k hk
        cases k with
        | zero =>
          simpa [List.take_zero, crawlLoop] using hs
        | succ j =>
          have hj : j < m := Nat.lt_of_succ_lt_succ hk
          have hred : crawlLoop fetch ((p :: rest).take (j + 1)) s
              = crawlLoop fetch (rest.take j) s' := by
            rw [List.take_succ_cons]
            conv_lhs => rw [crawlLoop]
            rw [hstep]
          rw [hred]
          exact hpre j hj

/-- C3: for every crawl there is a point `m` — the number of candidate pages
consulted — such that (i) the verdict depends only on the first `m` candidate
pages, so no page beyond that point is fetched or reflected, and (ii) before
the final consulted page the stop condition (at least one native tel-input
item found, or deduplicated evidence count ≥ 2) never holds. Hence once the
stop condition becomes true, no further candidate page is fetched and the
verdict never reflects pages beyond that point. -/
theorem c3_early_stop (w : String) (fetch : String → FetchOutcome) :
    ∃ m, m ≤ 12 ∧
      (∀ fetch', (∀ p ∈ (PAGES_TO_CHECK.take 12).take m, fetch' p = fetch p) →
        check_website w fetch' = check_website w fetch) ∧
      (∀ k, k < m →
        ¬ stopCond
          (crawlLoop fetch ((PAGES_TO_CHECK.take 12).take k) ⟨[], "", 0⟩).pf) := by
  cases hn : normalize_url w with
  | none =>
    refine ⟨0, Nat.zero_le _, ?_, fun k hk => absurd hk (Nat.not_lt_zero k)⟩
    intro f' _
    unfold check_website
    rw [hn]
  | some u =>
    have hinit : ¬ stopCond (⟨[], "", 0⟩ : LoopState).pf := by
      intro h
      rcases h with ⟨f, hf, _⟩ | hlen
      · exact (List.not_mem_nil f) hf
      · simp [dedupFields, dedupLoop] at hlen
    obtain ⟨m, hm, hag, hpre⟩ :=
      crawlLoop_stop_locality fetch (PAGES_TO_CHECK.take 12) ⟨[], "", 0⟩ hinit
    refine ⟨m, le_trans hm (by decide), ?_, hpre⟩
    intro f' hagree
    unfold check_website
    rw [hn, hag f' hagree]

/-! ## Claim C6 — homepage with a native tel input -/

theorem pages_take_12 :
    PAGES_TO_CHECK.take 12 =
      ["/", "/contact", "/contact/", "/contact-us", "/contact-us/",
       "/get-quote", "/get-quote/", "/quote", "/quote/", "/get-a-quote",
       "/get-a-quote/", "/free-quote"] := by
  decide

/-- The homepage HTML of the C6 scenario. -/
def scenarioHtml : String := "<input type=\"tel\" name=\"phone\">"

/-- The BeautifulSoup parse of `scenarioHtml`: exactly one input element,
with `type="tel"` and `name="phone"`, and no labels, wrappers or
form-builder markers. -/
def scenarioDoc : HtmlDoc :=
  ⟨[⟨"tel", "phone", "", "", "", [], []⟩], [], [], false, [], false, false, ""⟩

/-- What the extractor produces on the scenario page: the raw-HTML regex hit,
the native tel input, and the lexical match on `name="phone"`. -/
def scenarioEvidence : List Field :=
  [⟨"input[type=tel] (regex)", "", "", "", "type=tel found in HTML"⟩,
   ⟨"input[type=tel]", "phone", "", "", "type=tel"⟩,
   ⟨"input[keyword match]", "phone", "", "", "keyword: phone"⟩]

theorem scenario_extract :
    check_html_for_phone_fields scenarioHtml scenarioDoc = scenarioEvidence := by
  decide

/-- C6: when the homepage answers 200 with
`<input type="tel" name="phone">` (and no other phone signals), the verdict
has the phone flag set and its evidence list contains exactly one item of
the native-tel kind `input[type=tel]`. (The crawl stops at the homepage on
strong evidence, so the remaining candidate pages are irrelevant.) -/
theorem c6_homepage_tel_input (w u : String) (fetch : String → FetchOutcome)
    (hnorm : normalize_url w = some u)
    (hfetch : fetch "/" = FetchOutcome.response 200 scenarioHtml scenarioDoc) :
    (check_website w fetch).hasPhoneField = true ∧
    ((check_website w fetch).phoneFieldDetails.filter
        (fun f => f.type == "input[type=tel]")).length = 1 := by
  have hstep :
      crawlStep (FetchOutcome.response 200 scenarioHtml scenarioDoc) "/" ⟨[], "", 0⟩
        = StepRes.stop ⟨scenarioEvidence, "", 1⟩ := by
    decide
  have hloop : crawlLoop fetch (PAGES_TO_CHECK.take 12) ⟨[], "", 0⟩
      = ⟨scenarioEvidence, "", 1⟩ := by
    rw [pages_take_12]
    conv_lhs => rw [crawlLoop]
    rw [hfetch, hstep]
  unfold check_website
  rw [hnorm, hloop]
  show (finalize ⟨scenarioEvidence, "", 1⟩).hasPhoneField = true ∧
    ((finalize ⟨scenarioEvidence, "", 1⟩).phoneFieldDetails.filter
        (fun f => f.type == "input[type=tel]")).length = 1
  decide

/-- The oracle of the C6 witness: the homepage answers with the scenario
page, everything else errors. -/
def scenarioFetch : String → FetchOutcome := fun p =>
  if p = "/" then FetchOutcome.response 200 scenarioHtml scenarioDoc
  else FetchOutcome.failure

/-- Witness for C6 at a concrete company. -/
theorem c6_witness :
    (check_website "example.com" scenarioFetch).hasPhoneField = true ∧
    ((check_website "example.com" scenarioFetch).phoneFieldDetails.filter
        (fun f => f.type == "input[type=tel]")).length = 1 :=
  c6_homepage_tel_input "example.com" "https://example.com" scenarioFetch
    (by decide) (by decide)

/-! ## Claim C9 — rendering-strategy fallback (spec-modelled)

No rendering fetcher exists under src/: src/app.py's `check_website` fetches
with plain `requests` only, and no file of the repository holds a
headless-browser strategy, a strategy enum, or `RenderEngineFailure`. The
strategy machinery below is therefore modelled from the spec (§4.2, §4.4,
§7) and the plain-HTTP side reuses the loop body embedded from the source. -/

/-- Modelled from the spec: the fetch strategy of §4.2 — a plain-HTTP
strategy and a browser-rendering strategy. -/
inductive Strategy
  | rendering
  | plainHTTP
deriving DecidableEq, Repr

/-- Modelled from the spec: one rendering-strategy fetch either raises a hard
`RenderEngineFailure` or yields an ordinary page outcome. -/
inductive RenderOutcome
  | engineFailure
  | ok (o : FetchOutcome)
deriving DecidableEq, Repr

/-- Modelled from the spec: the rendering-strategy pass of the candidate
loop (§4.4, "Strategy fallback") — a hard `RenderEngineFailure` aborts the
pass (`none`) so the orchestrator can restart under plain HTTP; ordinary
outcomes drive the same loop body as the plain strategy. -/
def renderLoop (rf : String → RenderOutcome) :
    List String → LoopState → Option LoopState
  | [], s => some s
  | p :: rest, s =>
    match rf p with
    | .engineFailure => none
    | .ok o =>
      match crawlStep o p s with
      | .cont s' => renderLoop rf rest s'
      | .stop s' => some s'

/-- The plain-HTTP candidate loop, additionally counting fetch attempts
(one per candidate page consulted). -/
def crawlLoopCount (fetch : String → FetchOutcome) :
    List String → LoopState → Nat → LoopState × Nat
  | [], s, n => (s, n)
  | p :: rest, s, n =>
    match crawlStep (fetch p) p s with
    | .cont s' => crawlLoopCount fetch rest s' (n + 1)
    | .stop s' => (s', n + 1)

/-- A verdict extended with the spec's reported strategy and the number of
plain-HTTP fetch attempts made. -/
structure StrategyVerdict where
  verdict : Verdict
  strategy : Strategy
  plainAttempts : Nat
deriving DecidableEq, Repr

/-- Modelled from the spec: the orchestrator trying the rendering strategy
first; if that pass raises `RenderEngineFailure`, the candidate loop
restarts from the beginning under the plain-HTTP strategy and the switch is
recorded in the verdict (§4.4). -/
def check_website_with_fallback (website : String)
    (rf : String → RenderOutcome) (fetch : String → FetchOutcome) :
    StrategyVerdict :=
  match normalize_url website with
  | none => ⟨invalidVerdict, .rendering, 0⟩
  | some _ =>
    match renderLoop rf (PAGES_TO_CHECK.take 12) ⟨[], "", 0⟩ with
    | some s => ⟨finalize s, .rendering, 0⟩
    | none =>
      let r := crawlLoopCount fetch (PAGES_TO_CHECK.take 12) ⟨[], "", 0⟩ 0
      ⟨finalize r.1, .plainHTTP, r.2⟩

theorem crawlLoopCount_ge (fetch : String → FetchOutcome) :
    ∀ l s n, n ≤ (crawlLoopCount fetch l s n).2 := by
  intro l
  induction l with
  | nil => intro s n; exact Nat.le_refl n
  | cons p rest ih =>
    intro s n
    unfold crawlLoopCount
    cases crawlStep (fetch p) p s with
    | cont s' => exact le_trans (Nat.le_succ n) (ih s' (n + 1))
    | stop s' => exact Nat.le_succ n

theorem crawlLoopCount_pos (fetch : String → FetchOutcome) (p : String)
    (rest : List String) (s : LoopState) :
    1 ≤ (crawlLoopCount fetch (p :: rest) s 0).2 := by
  unfold crawlLoopCount
  cases crawlStep (fetch p) p s with
  | cont s' => exact crawlLoopCount_ge fetch rest s' 1
  | stop s' => exact Nat.le_refl 1

/-- C9 (spec-modelled): if the rendering strategy raises
`RenderEngineFailure` on the first candidate page, the crawl falls back to
plain HTTP — the verdict's reported strategy is the plain-HTTP strategy and
at least one plain-HTTP fetch attempt occurred. -/
theorem c9_render_fallback (w u : String) (rf : String → RenderOutcome)
    (fetch : String → FetchOutcome)
    (hnorm : normalize_url w = some u)
    (hfail : rf "/" = RenderOutcome.engineFailure) :
    (check_website_with_fallback w rf fetch).strategy = Strategy.plainHTTP ∧
    1 ≤ (check_website_with_fallback w rf fetch).plainAttempts := by
  have hrl : renderLoop rf (PAGES_TO_CHECK.take 12) ⟨[], "", 0⟩ = none := by
    rw [pages_take_12]
    conv_lhs => rw [renderLoop]
    rw [hfail]
  unfold check_website_with_fallback
  rw [hnorm, hrl]
  refine ⟨rfl, ?_⟩
  show 1 ≤ (crawlLoopCount fetch (PAGES_TO_CHECK.take 12) ⟨[], "", 0⟩ 0).2
  rw [pages_take_12]
  exact crawlLoopCount_pos fetch "/" _ ⟨[], "", 0⟩

/-- Witness for C9: the rendering engine fails everywhere, every plain fetch
errors. -/
theorem c9_witness :
    (check_website_with_fallback "example.com"
        (fun _ => RenderOutcome.engineFailure)
        (fun _ => FetchOutcome.failure)).strategy = Strategy.plainHTTP ∧
    1 ≤ (check_website_with_fallback "example.com"
        (fun _ => RenderOutcome.engineFailure)
        (fun _ => FetchOutcome.failure)).plainAttempts :=
  c9_render_fallback "example.com" "https://example.com" _ _ (by decide) rfl

end LeadQualifier
